/-
  Verification of the messenger backend's realtime and session-store core
  (src/backend/main.py) against its natural-language specification.

  The Python source is shallowly embedded: the database tables touched by the
  claims (refresh_tokens, messages, chat_members, message_hidden,
  message_delivered) become lists of records, the in-memory registries
  (USER_SOCKETS, RATE_BUCKETS) become association lists / functions, and each
  Python function under scrutiny becomes a Lean function that mirrors its
  statement order.  Python's exceptions are modelled with `Except` / result
  pairs; Python truthiness of JSON-ish values is modelled explicitly.
-/
import Mathlib

namespace Messenger

/-! ## Session store: refresh-token records (src/backend/main.py)

A row of the `refresh_tokens` table.  `replaced_by` is a nullable column,
hence `Option String`. -/

structure RefreshTokenRec where
  token : String
  username : String
  session_id : String
  created_at : Int
  expires_at : Int
  revoked : Bool
  replaced_by : Option String
  compromised : Bool
deriving DecidableEq, Repr

/-- The `refresh_tokens` table. `token` is the primary key. -/
abbrev Store := List RefreshTokenRec

/-- Query `SELECT ... FROM refresh_tokens WHERE token=%s` + `fetchone`. -/
def lookupToken (st : Store) (t : String) : Option RefreshTokenRec :=
  st.find? (fun r => r.token == t)

/-- Python truthiness of a nullable string column as read by psycopg:
`None` and `""` are falsy, any other string truthy
(`if row.get("replaced_by"):`). -/
def pyTruthyOptStr : Option String → Bool
  | none => false
  | some s => s != ""

/-- Model of `_insert_refresh_token(cur, username, now, session_id)` with the freshly
minted `secrets.token_urlsafe(36)` value passed in as `tok` (the model treats
the random token as an input).  `ttl` is `REFRESH_TTL_SECONDS`. -/
def _insert_refresh_token (st : Store) (tok : String) (username : String)
    (now : Int) (session_id : String) (ttl : Int) : Store :=
  st ++ [{ token := tok, username := username, session_id := session_id,
           created_at := now, expires_at := now + ttl,
           revoked := false, replaced_by := none, compromised := false }]

/-- Outcome of the `/api/refresh` endpoint, by the HTTP error raised. -/
inductive RefreshOutcome where
  /-- 400 `refresh_token required` (empty cookie). -/
  | missingToken
  /-- 401 `Invalid refresh token`. -/
  | invalidToken
  /-- 401 `Refresh token reuse detected`. -/
  | reuseDetected
  /-- Success; carries the freshly minted refresh token. -/
  | ok (newToken : String)
deriving DecidableEq, Repr

/-- The `refresh_tokens` endpoint (`POST /api/refresh`), src/backend/main.py.
`rt` is the (already stripped) cookie value, `newTok` the fresh random token
the rotation would mint, `now` the clock, `ttl` = `REFRESH_TTL_SECONDS`.
Returns the post-state of the table together with the outcome; on the
reuse-detection path the compromising UPDATE is committed before the 401 is
raised, so the error outcome carries the updated table. -/
def refresh_tokens (st : Store) (rt : String) (now : Int) (newTok : String)
    (ttl : Int) : Store × RefreshOutcome :=
  if rt = "" then (st, .missingToken)
  else
    match lookupToken st rt with
    | none => (st, .invalidToken)
    | some row =>
      if row.expires_at < now then (st, .invalidToken)
      else if row.revoked then
        if pyTruthyOptStr row.replaced_by then
          -- UPDATE refresh_tokens SET revoked=TRUE, compromised=TRUE
          --   WHERE username=%s AND revoked=FALSE
          (st.map (fun r =>
             if r.username = row.username ∧ r.revoked = false then
               { r with revoked := true, compromised := true }
             else r),
           .reuseDetected)
        else (st, .invalidToken)
      else
        -- _insert_refresh_token, then
        -- UPDATE refresh_tokens SET revoked=TRUE, replaced_by=%s WHERE token=%s
        let st1 := _insert_refresh_token st newTok row.username now row.session_id ttl
        let st2 := st1.map (fun r =>
          if r.token = rt then { r with revoked := true, replaced_by := some newTok }
          else r)
        (st2, .ok newTok)

/-- The `logout` endpoint's revocation:
`UPDATE refresh_tokens SET revoked=TRUE WHERE token=%s`
(leaves `replaced_by` and `compromised` untouched, touches no other row). -/
def logoutRevoke (st : Store) (rt : String) : Store :=
  st.map (fun r => if r.token = rt then { r with revoked := true } else r)

/-! ### Concrete stores used to instantiate the session-store theorems -/

/-- A token already rotated away (revoked, `replaced_by` set) but expired. -/
def c1ceStore : Store :=
  [{ token := "tokA", username := "alice", session_id := "s1",
     created_at := 0, expires_at := 10, revoked := true,
     replaced_by := some "tokB", compromised := false }]

/-- Rotated-away, unexpired token for alice. -/
def c1wRecA : RefreshTokenRec :=
  { token := "tokA", username := "alice", session_id := "s1",
    created_at := 0, expires_at := 1000, revoked := true,
    replaced_by := some "tokB", compromised := false }

/-- A still-active token for alice (a second device). -/
def c1wRecC : RefreshTokenRec :=
  { token := "tokC", username := "alice", session_id := "s2",
    created_at := 1, expires_at := 1000, revoked := false,
    replaced_by := none, compromised := false }

/-- Store holding a rotated-away token and a second active token of alice. -/
def c1wStore : Store := [c1wRecA, c1wRecC]

/-- An active, unexpired token for bob. -/
def c2wRec : RefreshTokenRec :=
  { token := "tokB1", username := "bob", session_id := "sb",
    created_at := 0, expires_at := 1000, revoked := false,
    replaced_by := none, compromised := false }

/-- Store holding bob's single active token. -/
def c2wStore : Store := [c2wRec]

/-- A token revoked by logout: `revoked = true`, `replaced_by = NULL`. -/
def c3wRec : RefreshTokenRec :=
  { token := "tokL", username := "carol", session_id := "sc",
    created_at := 0, expires_at := 1000, revoked := true,
    replaced_by := none, compromised := false }

/-- Store holding carol's logged-out token and an unrelated active token. -/
def c3wStore : Store :=
  [c3wRec,
   { token := "tokM", username := "carol", session_id := "sd",
     created_at := 0, expires_at := 1000, revoked := false,
     replaced_by := none, compromised := false }]

/-! ## Connection Registry (`USER_SOCKETS`) and Fan-out Broadcaster

`USER_SOCKETS : Dict[str, Set[WebSocket]]` becomes an association list from
username to the list of live connection handles (a Python set: no
duplicates).  Connection handles are opaque; `Nat` stands in for the
`WebSocket` object identity. -/

abbrev Conn := Nat

abbrev Registry := List (String × List Conn)

/-- Dictionary lookup `USER_SOCKETS[username]` / `in` test. -/
def wsLookup (reg : Registry) (u : String) : Option (List Conn) :=
  (reg.find? (fun p => p.1 == u)).map (fun p => p.2)

/-- Lookup `USER_SOCKETS.get(u, set())`. -/
def wsGet (reg : Registry) (u : String) : List Conn :=
  (wsLookup reg u).getD []

/-- Model of `_ws_add(username, ws)`: `USER_SOCKETS.setdefault(username, set()).add(ws)`. -/
def _ws_add (reg : Registry) (u : String) (c : Conn) : Registry :=
  match wsLookup reg u with
  | none => reg ++ [(u, [c])]
  | some _ =>
    reg.map (fun p =>
      if p.1 = u then (p.1, if c ∈ p.2 then p.2 else p.2 ++ [c]) else p)

/-- Model of `_ws_remove(username, ws)`: discard the handle from the username's set and
drop the username's entry entirely once the set becomes empty. -/
def _ws_remove (reg : Registry) (u : String) (c : Conn) : Registry :=
  match wsLookup reg u with
  | none => reg
  | some s =>
    let s2 := s.filter (fun x => x != c)
    if s2.isEmpty then reg.filter (fun p => p.1 != u)
    else reg.map (fun p => if p.1 = u then (p.1, s2) else p)

/-- Model of `active_connections_count(username)`. -/
def active_connections_count (reg : Registry) (u : String) : Nat :=
  (wsGet reg u).length

/-- Model of `connected_members(usernames)`. -/
def connected_members (reg : Registry) (usernames : List String) : List String :=
  usernames.filter (fun u => active_connections_count reg u > 0)

/-- A JSON scalar as it appears in a frame or event payload.  `emptyDict`
models the one non-scalar value the gateway emits, the empty `reactions`
map added to replayed messages. -/
inductive JVal where
  | null
  | b (v : Bool)
  | i (n : Int)
  | s (v : String)
  | emptyDict
deriving DecidableEq, Repr

/-- A wire event: the JSON object the server pushes to a connection. -/
abbrev Event := List (String × JVal)

/-- One delivery: which connection received which payload. -/
abbrev Send := Conn × Event

/-- Worker loop of `broadcast_users`, carrying the `sent_to` de-duplication
set. -/
def broadcast_users_go (reg : Registry) (payload : Event) :
    List String → List String → List Send
  | [], _ => []
  | u :: rest, sent =>
    if u ∈ sent then broadcast_users_go reg payload rest sent
    else
      ((wsGet reg u).map (fun c => (c, payload))) ++
        broadcast_users_go reg payload rest (u :: sent)

/-- Model of `broadcast_users(usernames, payload)`: de-duplicate via `sent_to`, then
push the payload to every live connection of each unique username.  The
result is the ordered list of sends performed. -/
def broadcast_users (reg : Registry) (usernames : List String)
    (payload : Event) : List Send :=
  if usernames.isEmpty then [] else broadcast_users_go reg payload usernames []

/-! ## Rate limiter (`RATE_BUCKETS`, `check_rate_limit`) -/

/-- The map `RATE_BUCKETS : Dict[str, List[int]]`, as a total map with the `.get(b,
[])` default built in. -/
abbrev Buckets := String → List Int

/-- The initial, empty `RATE_BUCKETS` map. -/
def emptyBuckets : Buckets := fun _ => []

/-- The payload of the `RateLimitExceeded` exception (its `error`/`message`
strings are constants irrelevant to the claims). -/
structure RateLimitExceeded where
  retry_after_seconds : Int
deriving DecidableEq, Repr

/-- Model of `check_rate_limit(bucket, limit)` with the window `w` =
`RATE_LIMIT_WINDOW_SECONDS` and clock `now` passed explicitly.  Returns the
post-state of `RATE_BUCKETS` and, on failure, the raised exception.  Mirrors
the source order: prune, test, raise *before* append/write-back. -/
def check_rate_limit (w : Int) (bs : Buckets) (bucket : String) (limit : Nat)
    (now : Int) : Buckets × Option RateLimitExceeded :=
  let start := now - w
  let arr := (bs bucket).filter (fun t => start ≤ t)
  if limit ≤ arr.length then
    -- `arr[0]` in the source; the failing branch has `limit ≤ arr.length`,
    -- so for `1 ≤ limit` the pruned list is nonempty and `headD` is `arr[0]`.
    (bs, some ⟨max 1 (w - (now - arr.headD 0))⟩)
  else
    (fun b => if b = bucket then arr ++ [now] else bs b, none)

/-- Iterate `check_rate_limit` over a list of call times, collecting each
call's success flag (`true` = no exception). -/
def runChecks (w : Int) (bucket : String) (limit : Nat) :
    Buckets → List Int → Buckets × List Bool
  | bs, [] => (bs, [])
  | bs, t :: ts =>
    let r := check_rate_limit w bs bucket limit t
    let rest := runChecks w bucket limit r.1 ts
    (rest.1, r.2.isNone :: rest.2)

/-! ### Concrete registries / buckets used to instantiate theorems -/

/-- Registry with alice on two devices and bob on one. -/
def c4wReg : Registry := [("alice", [1, 2]), ("bob", [3])]

/-- A sample event payload. -/
def c4wPayload : Event := [("type", .s "message"), ("chat_id", .s "c1")]

/-- Registry where dave has a single live connection. -/
def c8wReg : Registry := [("dave", [7]), ("erin", [3, 4])]

/-- A bucket map with one prior attempt at t=5 in bucket `auth:login:h`. -/
def c10wBuckets : Buckets := fun _ => [5]

/-! ## Realtime Gateway (`ws_user`)

The relational tables the gateway touches, the JSON coercions Python applies
to inbound frame fields, and the per-connection handler.  Python string
methods (`strip`, `lower`, `int(...)`) are modelled character-wise so they
compute inside the kernel. -/

/-- A row of the `messages` table (the scalar columns the replay claims
depend on; media/reply columns and `rewrite_media_links` carry opaque
payload data and are elided). -/
structure Msg where
  id : Int
  chat_id : String
  sender : String
  text : String
  created_at : Int
deriving DecidableEq, Repr

/-- The relational store as seen by the gateway. -/
structure DB where
  messages : List Msg
  /-- Table `chat_members` rows `(chat_id, username)`; `(chat_id, username)` is the
  primary key. -/
  chat_members : List (String × String)
  /-- Table `message_hidden` rows `(message_id, username)`. -/
  message_hidden : List (Int × String)
  /-- Table `message_delivered` rows `(message_id, username)` (the `delivered_at`
  column is never read back by the gateway). -/
  message_delivered : List (Int × String)
deriving DecidableEq, Repr

/-- Model of `is_member(conn, chat_id, username)`. -/
def is_member (d : DB) (chat_id username : String) : Bool :=
  d.chat_members.contains (chat_id, username)

/-- Model of `list_members(chat_id)`. -/
def list_members (d : DB) (chat_id : String) : List String :=
  (d.chat_members.filter (fun p => p.1 == chat_id)).map (fun p => p.2)

/-- The WHERE clause of `get_user_messages_since`: the reader is a member of
the message's chat and has not hidden the message. -/
def visible_to (d : DB) (username : String) (m : Msg) : Bool :=
  d.chat_members.contains (m.chat_id, username) &&
    !(d.message_hidden.contains (m.id, username))

/-- Model of `get_user_messages_since(username, since_message_id, limit=1000)`: early
return `[]` for a non-positive watermark, else the visible messages with
`m.id > since`, `ORDER BY m.id ASC`, `LIMIT limit`. -/
def get_user_messages_since (d : DB) (username : String) (since : Int)
    (limit : Nat) : List Msg :=
  if since ≤ 0 then []
  else
    ((d.messages.filter
        (fun m => visible_to d username m && decide (since < m.id))).insertionSort
      (fun a b => a.id ≤ b.id)).take limit

instance : IsTotal Msg (fun a b => a.id ≤ b.id) :=
  ⟨fun a b => Int.le_total a.id b.id⟩

instance : IsTrans Msg (fun a b => a.id ≤ b.id) :=
  ⟨fun _ _ _ => Int.le_trans⟩

/-- A replayed row pushed over the socket: the row's columns plus the
`message["type"] = "message"` / `message["reactions"] = {}` keys `ws_user`
adds before sending. -/
def rowEvent (m : Msg) : Event :=
  [("id", .i m.id), ("chat_id", .s m.chat_id), ("sender", .s m.sender),
   ("text", .s m.text), ("created_at", .i m.created_at),
   ("type", .s "message"), ("reactions", .emptyDict)]

/-! ### Python coercions on JSON frame fields -/

/-- Python `str.strip()` on the underlying characters (ASCII whitespace). -/
def pyStripChars (l : List Char) : List Char :=
  ((l.dropWhile Char.isWhitespace).reverse.dropWhile Char.isWhitespace).reverse

/-- Python `s.strip()`. -/
def pyStripString (s : String) : String := ⟨pyStripChars s.data⟩

/-- Python `s.lower()`. -/
def pyLowerString (s : String) : String := ⟨s.data.map Char.toLower⟩

/-- Decimal digit accumulator for `int(str)`. -/
def digitsToNat (acc : Nat) : List Char → Option Nat
  | [] => some acc
  | c :: cs =>
    if c.isDigit then digitsToNat (acc * 10 + (c.toNat - '0'.toNat)) cs
    else none

/-- Python `int(s)` for a string: optional surrounding whitespace, optional
sign, at least one digit; anything else raises `ValueError`. -/
def pyParseInt (s : String) : Option Int :=
  match pyStripChars s.data with
  | [] => none
  | '+' :: [] => none
  | '+' :: cs => (digitsToNat 0 cs).map Int.ofNat
  | '-' :: [] => none
  | '-' :: cs => (digitsToNat 0 cs).map (fun n => -(n : Int))
  | cs => (digitsToNat 0 cs).map Int.ofNat

/-- Python truthiness of a JSON value. -/
def pyTruthy : JVal → Bool
  | .null => false
  | .b v => v
  | .i n => n != 0
  | .s v => v != ""
  | .emptyDict => false

/-- Python `a or b`. -/
def pyOr (a b : JVal) : JVal := if pyTruthy a then a else b

/-- Lookup `data.get(k)`: the value under key `k`, `None` when absent. -/
def jGet (fs : List (String × JVal)) (k : String) : JVal :=
  match fs.find? (fun p => p.1 == k) with
  | some p => p.2
  | none => .null

/-- An uncaught Python exception inside the `ws_user` receive loop; it
escapes the `try/except WebSocketDisconnect` and terminates the
connection. -/
inductive PyErr where
  /-- e.g. `.strip()` or `.get` on a value of the wrong type. -/
  | attributeError
  /-- e.g. `int("abc")`. -/
  | valueError
deriving DecidableEq, Repr

instance decEqExcept {ε α : Type} [DecidableEq ε] [DecidableEq α] :
    DecidableEq (Except ε α) := fun x y =>
  match x, y with
  | .ok a, .ok b => decidable_of_iff (a = b) (by simp)
  | .ok _, .error _ => isFalse (fun h => Except.noConfusion h)
  | .error _, .ok _ => isFalse (fun h => Except.noConfusion h)
  | .error a, .error b => decidable_of_iff (a = b) (by simp)

/-- Python `v.strip()` on a JSON value: only a string has `.strip`; any truthy
non-string raises `AttributeError`.  (Falsy values are replaced by `""`
before this is reached, via `pyOr v (.s "")`.) -/
def pyStrip : JVal → Except PyErr String
  | .s v => .ok (pyStripString v)
  | _ => .error .attributeError

/-- Python `int(v)` on a JSON value. -/
def pyInt : JVal → Except PyErr Int
  | .i n => .ok n
  | .b v => .ok (if v then 1 else 0)
  | .s v =>
    match pyParseInt v with
    | some n => .ok n
    | none => .error .valueError
  | .null => .error .valueError
  | .emptyDict => .error .valueError

/-- Python `str(v)`. -/
def pyStr : JVal → String
  | .null => "None"
  | .b v => if v then "True" else "False"
  | .i n => toString n
  | .s v => v
  | .emptyDict => "\x7b\x7d"

/-- One inbound WebSocket frame as the `json.loads` boundary sees it. -/
inductive Frame where
  /-- Raw text `json.loads` rejects — caught, loop continues. -/
  | badJson
  /-- Valid JSON that is not an object — `.get` raises `AttributeError`. -/
  | nonDictJson
  /-- A JSON object. -/
  | dict (fields : List (String × JVal))
deriving DecidableEq, Repr

/-- The call-signaling tag set of the receive loop. -/
def callTags : List String :=
  ["call_offer", "call_answer", "call_accept", "call_reject", "call_end",
   "call_timeout", "call_ring_ack"]

/-- One iteration of the `ws_user` receive loop on one inbound frame:
either the updated store plus the sends performed, or the uncaught
exception that terminates the connection.  Mirrors the source's branch
and statement order. -/
def processFrame (reg : Registry) (d : DB) (username : String) (now : Int) :
    Frame → Except PyErr (DB × List Send)
  | .badJson => .ok (d, [])
  | .nonDictJson => .error .attributeError
  | .dict fs =>
    let t := jGet fs "type"
    if t = .s "pong" then .ok (d, [])
    else if t = .s "typing" then do
      let chat_id ← pyStrip (pyOr (jGet fs "chat_id") (.s ""))
      let is_typing := pyTruthy (jGet fs "is_typing")
      if chat_id = "" then .ok (d, [])
      else if is_member d chat_id username = false then .ok (d, [])
      else
        .ok (d, broadcast_users reg (list_members d chat_id)
          [("type", .s "typing"), ("chat_id", .s chat_id),
           ("username", .s username), ("is_typing", .b is_typing)])
    else if t = .s "delivered" then do
      let chat_id ← pyStrip (pyOr (jGet fs "chat_id") (.s ""))
      let mid ← pyInt (pyOr (jGet fs "message_id") (.i 0))
      if chat_id = "" ∨ mid = 0 then .ok (d, [])
      else if is_member d chat_id username = false then .ok (d, [])
      else
        -- INSERT ... ON CONFLICT (message_id, username) DO NOTHING
        let d2 :=
          if d.message_delivered.contains (mid, username) then d
          else { d with message_delivered :=
                   d.message_delivered ++ [(mid, username)] }
        .ok (d2, broadcast_users reg (list_members d2 chat_id)
          [("type", .s "delivered"), ("chat_id", .s chat_id),
           ("message_id", .i mid), ("username", .s username)])
    else if (callTags.map JVal.s).contains t then do
      let chat_id ← pyStrip (pyOr (jGet fs "chat_id") (.s ""))
      let call_id := pyStripString (pyStr (pyOr (jGet fs "call_id") (.s "")))
      let mode :=
        pyLowerString (pyStripString (pyStr (pyOr (jGet fs "mode") (.s "voice"))))
      if chat_id = "" ∨ call_id = "" then .ok (d, [])
      else if is_member d chat_id username = false then .ok (d, [])
      else
        let members := (list_members d chat_id).filter (fun u => u ≠ username)
        let recipients := connected_members reg members
        let et0 := if t = .s "call_accept" then "call_answer" else pyStr t
        let event_type := if et0 = "call_offer" then "incoming_call" else et0
        if t = .s "call_offer" ∧ recipients = [] then do
          let started ← pyInt (pyOr (jGet fs "started_at") (.i now))
          .ok (d, broadcast_users reg [username]
            [("type", .s "call_timeout"), ("chat_id", .s chat_id),
             ("call_id", .s call_id),
             ("mode", .s (if mode = "video" then "video" else "voice")),
             ("username", .s username), ("started_at", .i started),
             ("duration", .i 0), ("reason", .s "offline")])
        else do
          let started ← pyInt (pyOr (jGet fs "started_at") (.i now))
          let duration ← pyInt (pyOr (jGet fs "duration") (.i 0))
          let reason := pyStripString (pyStr (pyOr (jGet fs "reason") (.s "")))
          let payload : Event :=
            [("type", .s event_type), ("chat_id", .s chat_id),
             ("call_id", .s call_id),
             ("mode", .s (if mode = "video" then "video" else "voice")),
             ("username", .s username), ("started_at", .i started),
             ("duration", .i duration), ("reason", .s reason)]
          .ok (d, recipients.flatMap (fun target =>
            (wsGet reg target).map (fun c => (c, payload))))
    else .ok (d, [])

/-- The receive loop over a list of inbound frames: accumulates the sends in
order until a frame raises, which ends the loop (and hence the
connection). -/
def runFrames (reg : Registry) (username : String) (now : Int) :
    DB → List Frame → DB × List Send × Option PyErr
  | d, [] => (d, [], none)
  | d, f :: rest =>
    match processFrame reg d username now f with
    | .error e => (d, [], some e)
    | .ok (d2, sends) =>
      ((runFrames reg username now d2 rest).1,
       sends ++ (runFrames reg username now d2 rest).2.1,
       (runFrames reg username now d2 rest).2.2)

/-- The replay step of `ws_user`: for a positive `since` watermark, each row
of `get_user_messages_since` (default limit 1000) is sent to this
connection as a `message`-tagged event. -/
def ws_replay (d : DB) (self : Conn) (username : String) (since : Int) :
    List Send :=
  if 0 < since then
    (get_user_messages_since d username since 1000).map
      (fun m => (self, rowEvent m))
  else []

/-- A whole `ws_user` session after a successful handshake: register the
connection, replay missed messages, then run the receive loop.  Returns the
ordered sends of the session and the uncaught exception, if any, that ended
it. -/
def ws_session (reg0 : Registry) (d : DB) (self : Conn) (username : String)
    (since : Int) (frames : List Frame) (now : Int) :
    List Send × Option PyErr :=
  let reg := _ws_add reg0 username self
  (ws_replay d self username since ++ (runFrames reg username now d frames).2.1,
   (runFrames reg username now d frames).2.2)

/-! ### Concrete gateway fixtures -/

/-- Messages: ids 1,2 in chat c1 (alice+bob), id 3 in chat c2 (alice). -/
def c5wDB : DB :=
  { messages :=
      [{ id := 3, chat_id := "c2", sender := "alice", text := "x",
         created_at := 12 },
       { id := 1, chat_id := "c1", sender := "alice", text := "hi",
         created_at := 10 },
       { id := 2, chat_id := "c1", sender := "bob", text := "yo",
         created_at := 11 }],
    chat_members := [("c1", "alice"), ("c1", "bob"), ("c2", "alice")],
    message_hidden := [],
    message_delivered := [] }

/-- Registry before alice's reconnect (bob is online). -/
def c5wReg : Registry := [("bob", [3])]

/-- The c1 message with id 2, visible to alice. -/
def c5wMsg2 : Msg :=
  { id := 2, chat_id := "c1", sender := "bob", text := "yo", created_at := 11 }

/-- Chat c1 with members alice and bob. -/
def c6wDB : DB :=
  { messages := [], chat_members := [("c1", "alice"), ("c1", "bob")],
    message_hidden := [], message_delivered := [] }

/-- alice is connected twice; bob has no live connection. -/
def c6wReg : Registry := [("alice", [1, 2])]

/-- A syntactically valid `call_offer` frame from alice in chat c1. -/
def c6wFrame : List (String × JVal) :=
  [("type", .s "call_offer"), ("chat_id", .s "c1"), ("call_id", .s "k1")]

/-- A `delivered` frame whose `message_id` is a non-numeric string: the
receive loop's `int(data.get("message_id") or 0)` raises `ValueError`. -/
def c9BadFrame : Frame :=
  .dict [("type", .s "delivered"), ("chat_id", .s "c1"),
         ("message_id", .s "oops")]

/-- A frame with an unknown tag: no branch of the loop matches. -/
def c9UnknownFrame : Frame := .dict [("type", .s "mystery_tag"), ("x", .i 1)]

/-! ### Basic lemmas about `lookupToken` -/

theorem lookupToken_mem {st : Store} {t : String} {r : RefreshTokenRec}
    (h : lookupToken st t = some r) : r ∈ st ∧ r.token = t := by
  unfold lookupToken at h
  have hmem := List.mem_of_find?_eq_some h
  have hp := List.find?_some h
  simp only [beq_iff_eq] at hp
  exact ⟨hmem, hp⟩

theorem lookupToken_append (a b : Store) (t : String) :
    lookupToken (a ++ b) t =
      match lookupToken a t with
      | some r => some r
      | none => lookupToken b t := by
  induction a with
  | nil => simp [lookupToken]
  | cons x xs ih =>
    by_cases hx : x.token = t
    · simp [lookupToken, List.find?, hx]
    · simp only [lookupToken, List.cons_append, List.find?] at *
      have : (x.token == t) = false := by simp [hx]
      simp [this] at *
      exact ih

theorem lookupToken_map_token_preserving (st : Store) (t : String)
    (f : RefreshTokenRec → RefreshTokenRec)
    (hf : ∀ r, (f r).token = r.token) :
    lookupToken (st.map f) t = (lookupToken st t).map f := by
  induction st with
  | nil => simp [lookupToken]
  | cons x xs ih =>
    by_cases hx : x.token = t
    · have : ((f x).token == t) = true := by simp [hf, hx]
      simp [lookupToken, List.find?, this, hx]
    · have h1 : ((f x).token == t) = false := by simp [hf, hx]
      have h2 : (x.token == t) = false := by simp [hx]
      simp only [lookupToken, List.map_cons, List.find?, h1, h2] at *
      exact ih

/-! ### Claims C1–C3: refresh-token rotation -/

/-- C1 (amended): presenting a stored, *unexpired*, revoked refresh token whose
`replaced_by` is a non-empty token fails with `ReuseDetected`, and in the
committed post-state every other token of that username that was active
(`revoked = false`) is set to `revoked = true`, `compromised = true`, while
every other record is untouched. -/
theorem c1_reuse_detection (st : Store) (rt newTok : String) (now ttl : Int)
    (row : RefreshTokenRec) (s : String)
    (hrt : rt ≠ "")
    (hlk : lookupToken st rt = some row)
    (hexp : ¬ row.expires_at < now)
    (hrev : row.revoked = true)
    (hrep : row.replaced_by = some s)
    (hs : s ≠ "") :
    (refresh_tokens st rt now newTok ttl).2 = .reuseDetected ∧
    ∀ r, r ∈ st →
      (r.username = row.username ∧ r.revoked = false →
        { r with revoked := true, compromised := true } ∈
          (refresh_tokens st rt now newTok ttl).1) ∧
      (¬ (r.username = row.username ∧ r.revoked = false) →
        r ∈ (refresh_tokens st rt now newTok ttl).1) := by
  have htr : pyTruthyOptStr row.replaced_by = true := by
    rw [hrep]; simp [pyTruthyOptStr, hs]
  have hres : refresh_tokens st rt now newTok ttl =
      (st.map (fun r =>
         if r.username = row.username ∧ r.revoked = false then
           { r with revoked := true, compromised := true }
         else r),
       .reuseDetected) := by
    unfold refresh_tokens
    rw [if_neg hrt, hlk]
    simp [hexp, hrev, htr]
  refine ⟨by rw [hres], fun r hr => ⟨fun hcond => ?_, fun hcond => ?_⟩⟩
  · rw [hres]
    exact List.mem_map.mpr ⟨r, hr, by simp [hcond]⟩
  · rw [hres]
    exact List.mem_map.mpr ⟨r, hr, by simp [hcond]⟩

/-- C1 witness: on a concrete store holding alice's rotated-away token `tokA`
and her still-active token `tokC`, presenting `tokA` yields `ReuseDetected`
and `tokC` reappears revoked and compromised. -/
theorem c1_witness :
    (refresh_tokens c1wStore "tokA" 5 "tokN" 100).2 = .reuseDetected ∧
    { c1wRecC with revoked := true, compromised := true } ∈
      (refresh_tokens c1wStore "tokA" 5 "tokN" 100).1 := by
  have h := c1_reuse_detection c1wStore "tokA" "tokN" 5 100 c1wRecA "tokB"
    (by decide) (by decide) (by decide) (by decide) (by decide) (by decide)
  exact ⟨h.1, (h.2 c1wRecC (by decide)).1 (by decide)⟩

/-- C1 counterexample: the claim as stated is false on an *expired*
rotated-away token.  `tokA` in `c1ceStore` is revoked with non-null
`replaced_by = some "tokB"`, yet presenting it at time 100 (past its
`expires_at = 10`) fails with `InvalidToken`, not `ReuseDetected`, because the
expiry check precedes the reuse check in `refresh_tokens`. -/
theorem c1_counterexample :
    lookupToken c1ceStore "tokA" =
      some { token := "tokA", username := "alice", session_id := "s1",
             created_at := 0, expires_at := 10, revoked := true,
             replaced_by := some "tokB", compromised := false } ∧
    (refresh_tokens c1ceStore "tokA" 100 "tokN" 1000).2 = .invalidToken ∧
    (refresh_tokens c1ceStore "tokA" 100 "tokN" 1000).2 ≠ .reuseDetected := by
  refine ⟨by decide, by decide, by decide⟩

/-- C2: a successful rotation revokes the presented token, links it to the
freshly minted one through `replaced_by`, inserts the new token as an active
record with the *same* `session_id`, and returns the new token. -/
theorem c2_rotation_success (st : Store) (rt newTok : String) (now ttl : Int)
    (row : RefreshTokenRec)
    (hrt : rt ≠ "")
    (hlk : lookupToken st rt = some row)
    (hexp : ¬ row.expires_at < now)
    (hrev : row.revoked = false)
    (hfresh : lookupToken st newTok = none) :
    (refresh_tokens st rt now newTok ttl).2 = .ok newTok ∧
    lookupToken (refresh_tokens st rt now newTok ttl).1 rt =
      some { row with revoked := true, replaced_by := some newTok } ∧
    lookupToken (refresh_tokens st rt now newTok ttl).1 newTok =
      some { token := newTok, username := row.username,
             session_id := row.session_id, created_at := now,
             expires_at := now + ttl, revoked := false,
             replaced_by := none, compromised := false } := by
  have hne : newTok ≠ rt := by
    intro he; rw [he, hlk] at hfresh; exact Option.noConfusion hfresh
  have hrowtok : row.token = rt := (lookupToken_mem hlk).2
  set newRec : RefreshTokenRec :=
    { token := newTok, username := row.username, session_id := row.session_id,
      created_at := now, expires_at := now + ttl, revoked := false,
      replaced_by := none, compromised := false } with hnewRec
  set upd : RefreshTokenRec → RefreshTokenRec := fun r =>
    if r.token = rt then { r with revoked := true, replaced_by := some newTok }
    else r with hupd
  have hpres : ∀ r, (upd r).token = r.token := by
    intro r; rw [hupd]; by_cases h : r.token = rt <;> simp [h]
  have hres : refresh_tokens st rt now newTok ttl =
      ((st ++ [newRec]).map upd, .ok newTok) := by
    unfold refresh_tokens
    rw [if_neg hrt, hlk]
    simp only [hexp, if_false, hrev, Bool.false_eq_true]
    rfl
  refine ⟨by rw [hres], ?_, ?_⟩
  · rw [hres]
    rw [lookupToken_map_token_preserving _ _ _ hpres, lookupToken_append, hlk]
    simp only [Option.map_some]
    rw [hupd]
    simp [hrowtok]
  · rw [hres]
    rw [lookupToken_map_token_preserving _ _ _ hpres, lookupToken_append, hfresh]
    have : lookupToken [newRec] newTok = some newRec := by
      simp [lookupToken, List.find?, hnewRec]
    rw [this]
    simp only [Option.map_some]
    rw [hupd]
    simp [hnewRec, hne]

/-- C2 witness: rotating bob's active token `tokB1` into `tokB2` on a concrete
store revokes `tokB1`, links it to `tokB2`, and records `tokB2` under the same
session `sb`. -/
theorem c2_witness :
    (refresh_tokens c2wStore "tokB1" 7 "tokB2" 100).2 = .ok "tokB2" ∧
    lookupToken (refresh_tokens c2wStore "tokB1" 7 "tokB2" 100).1 "tokB1" =
      some { c2wRec with revoked := true, replaced_by := some "tokB2" } ∧
    lookupToken (refresh_tokens c2wStore "tokB1" 7 "tokB2" 100).1 "tokB2" =
      some { token := "tokB2", username := "bob", session_id := "sb",
             created_at := 7, expires_at := 107, revoked := false,
             replaced_by := none, compromised := false } := by
  have h := c2_rotation_success c2wStore "tokB1" "tokB2" 7 100 c2wRec
    (by decide) (by decide) (by decide) (by decide) (by decide)
  exact h

/-- C3: presenting a revoked token with `replaced_by = NULL` (the state a
logout leaves behind) fails with `InvalidToken` — not `ReuseDetected` — and
leaves the whole table unchanged. -/
theorem c3_logout_revoked_invalid (st : Store) (rt newTok : String)
    (now ttl : Int) (row : RefreshTokenRec)
    (hrt : rt ≠ "")
    (hlk : lookupToken st rt = some row)
    (hrev : row.revoked = true)
    (hrep : row.replaced_by = none) :
    (refresh_tokens st rt now newTok ttl).2 = .invalidToken ∧
    (refresh_tokens st rt now newTok ttl).1 = st := by
  have htr : pyTruthyOptStr row.replaced_by = false := by
    rw [hrep]; rfl
  unfold refresh_tokens
  rw [if_neg hrt, hlk]
  by_cases hexp : row.expires_at < now
  · simp [hexp]
  · simp [hexp, hrev, htr]

/-- C3 witness: carol's logged-out token `tokL` fails with `InvalidToken` and
her other active token `tokM` is untouched (the store is unchanged). -/
theorem c3_witness :
    (refresh_tokens c3wStore "tokL" 5 "tokN" 100).2 = .invalidToken ∧
    (refresh_tokens c3wStore "tokL" 5 "tokN" 100).1 = c3wStore := by
  exact c3_logout_revoked_invalid c3wStore "tokL" "tokN" 5 100 c3wRec
    (by decide) (by decide) (by decide) (by decide)

/-! ### Lemmas about the Connection Registry and the broadcaster -/

theorem wsLookup_filter_ne (reg : Registry) (u : String) :
    wsLookup (reg.filter (fun p => p.1 != u)) u = none := by
  induction reg with
  | nil => rfl
  | cons p ps ih =>
    by_cases h : p.1 = u
    · simpa [List.filter_cons, h] using ih
    · have hcond : (p.1 != u) = true := by simp [h]
      simp only [List.filter_cons, hcond, if_true]
      simp only [wsLookup, List.find?]
      have hb : (p.1 == u) = false := by simp [h]
      rw [hb]
      exact ih

theorem count_map_pair (l : List Conn) (c : Conn) (p : Event) :
    ((l.map (fun x => (x, p))).count (c, p)) = l.count c := by
  induction l with
  | nil => rfl
  | cons x xs ih =>
    simp only [List.map_cons, List.count_cons, ih, Prod.mk.injEq, beq_iff_eq,
      and_true]

theorem broadcast_go_count_zero (reg : Registry) (p : Event) (u : String)
    (c : Conn) :
    ∀ (usernames sent : List String),
      (∀ v ∈ usernames, v ≠ u → c ∉ wsGet reg v) → u ∈ sent →
      ((broadcast_users_go reg p usernames sent).count (c, p)) = 0 := by
  intro usernames
  induction usernames with
  | nil => intro sent _ _; rfl
  | cons v rest ih =>
    intro sent hv hu
    by_cases hmem : v ∈ sent
    · simp only [broadcast_users_go, if_pos hmem]
      exact ih sent (fun x hx hxu => hv x (List.mem_cons_of_mem _ hx) hxu) hu
    · simp only [broadcast_users_go, if_neg hmem, List.count_append]
      have hvne : v ≠ u := fun he => hmem (he ▸ hu)
      have hc : c ∉ wsGet reg v := hv v (List.mem_cons_self _ _) hvne
      have h1 : ((wsGet reg v).map (fun c => (c, p))).count (c, p) = 0 := by
        rw [count_map_pair]
        exact List.count_eq_zero.mpr hc
      have h2 := ih (v :: sent)
        (fun x hx hxu => hv x (List.mem_cons_of_mem _ hx) hxu)
        (List.mem_cons_of_mem _ hu)
      omega

theorem broadcast_go_count_mem (reg : Registry) (p : Event) (u : String)
    (c : Conn) :
    ∀ (usernames sent : List String),
      u ∈ usernames → u ∉ sent →
      (∀ v ∈ usernames, v ≠ u → c ∉ wsGet reg v) →
      ((broadcast_users_go reg p usernames sent).count (c, p)) =
        (wsGet reg u).count c := by
  intro usernames
  induction usernames with
  | nil => intro sent hu; exact absurd hu (List.not_mem_nil u)
  | cons v rest ih =>
    intro sent hu hus hv
    by_cases hmem : v ∈ sent
    · have hvu : v ≠ u := fun he => hus (he ▸ hmem)
      have hur : u ∈ rest := by
        rcases List.mem_cons.mp hu with h | h
        · exact absurd h.symm hvu
        · exact h
      simp only [broadcast_users_go, if_pos hmem]
      exact ih sent hur hus (fun x hx hxu => hv x (List.mem_cons_of_mem _ hx) hxu)
    · simp only [broadcast_users_go, if_neg hmem, List.count_append]
      by_cases hvu : v = u
      · subst hvu
        have h1 : ((wsGet reg v).map (fun c => (c, p))).count (c, p) =
            (wsGet reg v).count c := count_map_pair _ _ _
        have h2 := broadcast_go_count_zero reg p v c rest (v :: sent)
          (fun x hx hxu => hv x (List.mem_cons_of_mem _ hx) hxu)
          (List.mem_cons_self _ _)
        omega
      · have hur : u ∈ rest := by
          rcases List.mem_cons.mp hu with h | h
          · exact absurd h.symm hvu
          · exact h
        have hc : c ∉ wsGet reg v := hv v (List.mem_cons_self _ _) hvu
        have h1 : ((wsGet reg v).map (fun c => (c, p))).count (c, p) = 0 := by
          rw [count_map_pair]
          exact List.count_eq_zero.mpr hc
        have h2 := ih (v :: sent) hur
          (fun he => (List.mem_cons.mp he).elim (fun h => hvu h.symm) hus)
          (fun x hx hxu => hv x (List.mem_cons_of_mem _ hx) hxu)
        omega

/-! ### Claims C4 and C8: broadcaster and registry -/

/-- C4: `broadcast_users` pushes the payload exactly once to each live
connection of each distinct listed username, even when the username list has
duplicates (connection `c` of user `u` receives exactly one copy, provided
`u`'s connection set is duplicate-free as a Python set is and no other listed
user owns the same connection handle); and for a username with zero live
connections it is a no-op producing no sends. -/
theorem c4_broadcast_exactly_once (reg : Registry) (usernames : List String)
    (payload : Event) (u : String) (c : Conn) :
    (u ∈ usernames → c ∈ wsGet reg u → (wsGet reg u).Nodup →
      (∀ v ∈ usernames, v ≠ u → c ∉ wsGet reg v) →
      (broadcast_users reg usernames payload).count (c, payload) = 1) ∧
    (wsGet reg u = [] → broadcast_users reg [u] payload = []) := by
  constructor
  · intro hu hc hnd hv
    have hne : usernames.isEmpty = false := by
      cases usernames with
      | nil => exact absurd hu (List.not_mem_nil u)
      | cons a l => rfl
    unfold broadcast_users
    rw [hne]
    simp only [Bool.false_eq_true, if_false]
    rw [broadcast_go_count_mem reg payload u c usernames [] hu
      (List.not_mem_nil u) hv]
    exact List.count_eq_one_of_mem hnd hc
  · intro hzero
    unfold broadcast_users
    simp [broadcast_users_go, hzero]

/-- C4 witness: with alice on connections 1 and 2, bob on 3, the call
`broadcast_users(["alice","alice","bob"], e)` delivers exactly one copy to
alice's connection 1; and broadcasting to carol (no live connections) performs
no sends. -/
theorem c4_witness :
    (broadcast_users c4wReg ["alice", "alice", "bob"] c4wPayload).count
      (1, c4wPayload) = 1 ∧
    broadcast_users c4wReg ["carol"] c4wPayload = [] := by
  have h := c4_broadcast_exactly_once c4wReg ["alice", "alice", "bob"]
    c4wPayload "alice" 1
  have h2 := c4_broadcast_exactly_once c4wReg ["carol"] c4wPayload "carol" 1
  exact ⟨h.1 (by decide) (by decide) (by decide) (by decide), h2.2 (by decide)⟩

/-- C8: removing a user's last connection deletes the user's registry entry
entirely: the key lookup yields `none`, `active_connections_count` is 0, and
the username is absent from the registry's key set. -/
theorem c8_remove_last_connection (reg : Registry) (u : String) (c : Conn)
    (h : wsLookup reg u = some [c]) :
    wsLookup (_ws_remove reg u c) u = none ∧
    active_connections_count (_ws_remove reg u c) u = 0 ∧
    u ∉ (_ws_remove reg u c).map Prod.fst := by
  have hres : _ws_remove reg u c = reg.filter (fun p => p.1 != u) := by
    unfold _ws_remove
    rw [h]
    simp
  have hnone : wsLookup (_ws_remove reg u c) u = none := by
    rw [hres]; exact wsLookup_filter_ne reg u
  refine ⟨hnone, ?_, ?_⟩
  · unfold active_connections_count wsGet
    rw [hnone]
    rfl
  · rw [hres]
    intro hmem
    obtain ⟨p, hp, hpu⟩ := List.mem_map.mp hmem
    have := List.of_mem_filter hp
    simp [hpu] at this

/-- C8 witness: removing dave's only connection 7 deletes the `"dave"` entry
from the registry: lookup is `none`, the count is 0 and the key is gone. -/
theorem c8_witness :
    wsLookup (_ws_remove c8wReg "dave" 7) "dave" = none ∧
    active_connections_count (_ws_remove c8wReg "dave" 7) "dave" = 0 ∧
    "dave" ∉ (_ws_remove c8wReg "dave" 7).map Prod.fst := by
  exact c8_remove_last_connection c8wReg "dave" 7 (by decide)

/-! ### Lemmas about the rate limiter -/

theorem check_rate_limit_succeeds (w : Int) (bs : Buckets) (bucket : String)
    (limit : Nat) (now : Int)
    (h1 : ∀ x ∈ bs bucket, now - w ≤ x)
    (h2 : (bs bucket).length < limit) :
    check_rate_limit w bs bucket limit now =
      (fun b => if b = bucket then bs bucket ++ [now] else bs b, none) := by
  unfold check_rate_limit
  dsimp only
  have hfil : (bs bucket).filter (fun t => decide (now - w ≤ t)) = bs bucket :=
    List.filter_eq_self.mpr (fun x hx => by simpa using h1 x hx)
  rw [hfil, if_neg (by omega)]

theorem runChecks_all_ok (w : Int) (bucket : String) (limit : Nat) (t0 : Int) :
    ∀ (ts : List Int) (bs : Buckets),
      (∀ x ∈ bs bucket, t0 ≤ x) →
      (∀ t ∈ ts, t0 ≤ t ∧ t ≤ t0 + w) →
      (bs bucket).length + ts.length ≤ limit →
      (runChecks w bucket limit bs ts).2 = List.replicate ts.length true ∧
      (runChecks w bucket limit bs ts).1 bucket = bs bucket ++ ts := by
  intro ts
  induction ts with
  | nil => intro bs _ _ _; exact ⟨rfl, by simp [runChecks]⟩
  | cons t ts ih =>
    intro bs h1 h2 h3
    have hw : t ≤ t0 + w := (h2 t (List.mem_cons_self _ _)).2
    have hs := check_rate_limit_succeeds w bs bucket limit t
      (fun x hx => by have := h1 x hx; omega)
      (by simp only [List.length_cons] at h3; omega)
    have ih' := ih (fun b => if b = bucket then bs bucket ++ [t] else bs b)
      (by
        intro x hx
        have hx' : x ∈ bs bucket ∨ x = t := by simpa using hx
        rcases hx' with h | h
        · exact h1 x h
        · exact h ▸ (h2 t (List.mem_cons_self _ _)).1)
      (fun x hx => h2 x (List.mem_cons_of_mem _ hx))
      (by
        simp only [List.length_cons] at h3
        simp
        omega)
    simp only [runChecks, hs]
    refine ⟨?_, ?_⟩
    · simp only [List.length_cons, List.replicate_succ]
      rw [← ih'.1]
      rfl
    · rw [ih'.2]
      simp

/-! ### Claim C7: sliding-window rate limiting -/

/-- C7: for a fresh bucket with limit `N` and window `w`: `N` calls whose
times all lie within the window of the first call all succeed; an `(N+1)`-th
call still inside that window fails with `RateLimitExceeded` whose retry-after
is `max 1 (w - (now - oldest))` computed from the oldest in-window timestamp;
and a subsequent call made strictly after the window has elapsed from the
first recorded attempt succeeds again. -/
theorem c7_rate_limit_sliding_window (w : Int) (bucket : String) (limit : Nat)
    (t0 : Int) (rest : List Int) (tExtra T : Int)
    (hlen : (t0 :: rest).length = limit)
    (hin : ∀ t ∈ t0 :: rest, t0 ≤ t ∧ t ≤ t0 + w)
    (_hex1 : t0 ≤ tExtra) (hex2 : tExtra ≤ t0 + w)
    (hT : t0 + w < T) :
    (runChecks w bucket limit emptyBuckets (t0 :: rest)).2 =
      List.replicate limit true ∧
    (check_rate_limit w (runChecks w bucket limit emptyBuckets (t0 :: rest)).1
        bucket limit tExtra).2 = some ⟨max 1 (w - (tExtra - t0))⟩ ∧
    (check_rate_limit w
        (check_rate_limit w
          (runChecks w bucket limit emptyBuckets (t0 :: rest)).1
          bucket limit tExtra).1
        bucket limit T).2 = none := by
  obtain ⟨hflags, hstate⟩ := runChecks_all_ok w bucket limit t0 (t0 :: rest)
    emptyBuckets (by simp [emptyBuckets]) hin
    (by simp [emptyBuckets, hlen])
  have hb1 : (runChecks w bucket limit emptyBuckets (t0 :: rest)).1 bucket =
      t0 :: rest := by simpa [emptyBuckets] using hstate
  have hfail : check_rate_limit w
      (runChecks w bucket limit emptyBuckets (t0 :: rest)).1
      bucket limit tExtra =
      ((runChecks w bucket limit emptyBuckets (t0 :: rest)).1,
       some ⟨max 1 (w - (tExtra - t0))⟩) := by
    unfold check_rate_limit
    dsimp only
    rw [hb1]
    have hfil : (t0 :: rest).filter (fun t => decide (tExtra - w ≤ t)) =
        t0 :: rest :=
      List.filter_eq_self.mpr (fun x hx => by
        have := (hin x hx).1
        simp only [decide_eq_true_eq]
        omega)
    rw [hfil, if_pos (by rw [hlen])]
    rfl
  refine ⟨by rw [hflags, hlen], by rw [hfail], ?_⟩
  rw [hfail]
  unfold check_rate_limit
  dsimp only
  rw [hb1]
  have hfil : (t0 :: rest).filter (fun t => decide (T - w ≤ t)) =
      rest.filter (fun t => decide (T - w ≤ t)) := by
    simp only [List.filter_cons]
    rw [if_neg (by simp only [decide_eq_true_eq]; omega)]
  rw [hfil, if_neg (by
    have hle := List.length_filter_le (fun t => decide (T - w ≤ t)) rest
    simp only [List.length_cons] at hlen
    omega)]

/-- C7 witness: limit 3, window 60, calls at 100/110/120 all succeed; a 4th
call at 130 fails with retry-after 30 = 60-(130-100); a call at 161 (strictly
past 100+60) succeeds again. -/
theorem c7_witness :
    (runChecks 60 "auth:login:h" 3 emptyBuckets [100, 110, 120]).2 =
      List.replicate 3 true ∧
    (check_rate_limit 60
        (runChecks 60 "auth:login:h" 3 emptyBuckets [100, 110, 120]).1
        "auth:login:h" 3 130).2 = some ⟨30⟩ ∧
    (check_rate_limit 60
        (check_rate_limit 60
          (runChecks 60 "auth:login:h" 3 emptyBuckets [100, 110, 120]).1
          "auth:login:h" 3 130).1
        "auth:login:h" 3 161).2 = none := by
  have h := c7_rate_limit_sliding_window 60 "auth:login:h" 3 100 [110, 120]
    130 161 (by decide) (by decide) (by decide) (by decide) (by decide)
  exact ⟨h.1, by rw [h.2.1]; decide, h.2.2⟩

/-! ### Claim C10: rate-limiter error atomicity -/

/-- C10: a `check_rate_limit` call that raises `RateLimitExceeded` leaves the
bucket map untouched — the rejected attempt's timestamp is not recorded and
the lazily pruned list is not written back, since the source raises before
`arr.append(now)` and the `RATE_BUCKETS[bucket] = arr` write-back. -/
theorem c10_failure_leaves_buckets_unchanged (w : Int) (bs : Buckets)
    (bucket : String) (limit : Nat) (now : Int) (e : RateLimitExceeded)
    (h : (check_rate_limit w bs bucket limit now).2 = some e) :
    (check_rate_limit w bs bucket limit now).1 = bs := by
  unfold check_rate_limit at h ⊢
  dsimp only at h ⊢
  by_cases hc :
      limit ≤ ((bs bucket).filter (fun t => decide (now - w ≤ t))).length
  · rw [if_pos hc]
  · rw [if_neg hc] at h
    simp at h

/-- C10 witness: with one prior attempt at t=5, limit 1 and window 60, the
call at t=10 fails with retry-after 55 and the bucket map is exactly the
input map. -/
theorem c10_witness :
    (check_rate_limit 60 c10wBuckets "auth:login:h" 1 10).2 = some ⟨55⟩ ∧
    (check_rate_limit 60 c10wBuckets "auth:login:h" 1 10).1 = c10wBuckets := by
  have h : (check_rate_limit 60 c10wBuckets "auth:login:h" 1 10).2 =
      some ⟨55⟩ := by decide
  exact ⟨h,
    c10_failure_leaves_buckets_unchanged 60 c10wBuckets "auth:login:h" 1 10
      ⟨55⟩ h⟩

/-! ### Lemmas about the gateway -/

theorem except_bind_ok {ε α β : Type} (a : α) (f : α → Except ε β) :
    (Except.ok a >>= f) = f a := rfl

theorem broadcast_users_singleton (reg : Registry) (u : String) (p : Event) :
    broadcast_users reg [u] p = (wsGet reg u).map (fun c => (c, p)) := by
  simp [broadcast_users, broadcast_users_go]

theorem connected_members_nil (reg : Registry) (l : List String)
    (h : ∀ v ∈ l, wsGet reg v = []) : connected_members reg l = [] := by
  unfold connected_members
  apply List.filter_eq_nil_iff.mpr
  intro v hv
  simp [active_connections_count, h v hv]

/-! ### Claim C5: replay of missed messages on reconnect -/

/-- C5: with a positive `since` watermark, a `ws_user` session's sends are the
replay sends followed by the receive-loop sends; the replay consists of
exactly the rows of `get_user_messages_since`, each delivered to this
connection as a `message`-tagged event; those rows are in ascending id order,
at most 1000 of them; and (whenever the qualifying set fits the batch bound)
they are exactly the messages visible to the user with id above the
watermark, across all the user's chats. -/
theorem c5_replay_watermark (reg0 : Registry) (d : DB) (self : Conn)
    (username : String) (since now : Int) (h : 0 < since) :
    (∀ frames, (ws_session reg0 d self username since frames now).1 =
        ws_replay d self username since ++
          (runFrames (_ws_add reg0 username self) username now d frames).2.1) ∧
    ws_replay d self username since =
      (get_user_messages_since d username since 1000).map
        (fun m => (self, rowEvent m)) ∧
    (∀ sd ∈ ws_replay d self username since,
        sd.1 = self ∧ jGet sd.2 "type" = .s "message") ∧
    (get_user_messages_since d username since 1000).Pairwise
      (fun a b => a.id ≤ b.id) ∧
    (get_user_messages_since d username since 1000).length ≤ 1000 ∧
    ((d.messages.filter (fun m =>
        visible_to d username m && decide (since < m.id))).length ≤ 1000 →
      ∀ m, m ∈ get_user_messages_since d username since 1000 ↔
        (m ∈ d.messages ∧ visible_to d username m = true ∧ since < m.id)) := by
  have hpos : ¬ since ≤ 0 := by omega
  have hrepl : ws_replay d self username since =
      (get_user_messages_since d username since 1000).map
        (fun m => (self, rowEvent m)) := by
    unfold ws_replay
    rw [if_pos h]
  have hq : get_user_messages_since d username since 1000 =
      ((d.messages.filter (fun m =>
          visible_to d username m && decide (since < m.id))).insertionSort
        (fun a b => a.id ≤ b.id)).take 1000 := by
    unfold get_user_messages_since
    rw [if_neg hpos]
  refine ⟨fun frames => rfl, hrepl, ?_, ?_, ?_, ?_⟩
  · intro sd hsd
    rw [hrepl] at hsd
    obtain ⟨m, _, rfl⟩ := List.mem_map.mp hsd
    exact ⟨rfl, rfl⟩
  · rw [hq]
    exact (List.sorted_insertionSort _ _).sublist
      (List.take_sublist _ _)
  · rw [hq]
    exact List.length_take_le _ _
  · intro hlen m
    have hperm := List.perm_insertionSort (fun a b => a.id ≤ b.id)
      (d.messages.filter (fun m =>
        visible_to d username m && decide (since < m.id)))
    have hlen2 : ((d.messages.filter (fun m =>
        visible_to d username m && decide (since < m.id))).insertionSort
          (fun a b => a.id ≤ b.id)).length ≤ 1000 := by
      rw [hperm.length_eq]
      exact hlen
    rw [hq, List.take_of_length_le hlen2, hperm.mem_iff, List.mem_filter]
    simp only [Bool.and_eq_true, decide_eq_true_eq, and_assoc]

/-- C5 witness: alice reconnects with watermark 1 against a store holding
message 1 (already seen), message 2 in chat c1 and message 3 in chat c2; the
session's sends start with the replay, the replayed rows are ascending, the
row for message 2 is sent to alice's connection tagged `message`, and
membership matches visibility above the watermark. -/
theorem c5_witness :
    (ws_session c5wReg c5wDB 9 "alice" 1 [] 0).1 =
      ws_replay c5wDB 9 "alice" 1 ++
        (runFrames (_ws_add c5wReg "alice" 9) "alice" 0 c5wDB []).2.1 ∧
    (get_user_messages_since c5wDB "alice" 1 1000).Pairwise
      (fun a b => a.id ≤ b.id) ∧
    (((9 : Conn), rowEvent c5wMsg2).1 = 9 ∧
      jGet (rowEvent c5wMsg2) "type" = .s "message") ∧
    (c5wMsg2 ∈ get_user_messages_since c5wDB "alice" 1 1000 ↔
      (c5wMsg2 ∈ c5wDB.messages ∧ visible_to c5wDB "alice" c5wMsg2 = true ∧
        1 < c5wMsg2.id)) := by
  have h := c5_replay_watermark c5wReg c5wDB 9 "alice" 1 0 (by decide)
  exact ⟨h.1 [], h.2.2.2.1,
    h.2.2.1 (9, rowEvent c5wMsg2) (by decide),
    h.2.2.2.2.2 (by decide) c5wMsg2⟩

/-! ### Claim C6: call offer with no reachable recipient -/

/-- C6: a `call_offer` frame from a chat member, when every other member of
the chat has zero live connections, makes the gateway send a `call_timeout`
event with reason `offline` to each of the *caller's* own connections, and
nothing to anyone else (the send list ranges over `wsGet reg username`
only). -/
theorem c6_call_offer_offline (reg : Registry) (d : DB) (username : String)
    (now : Int) (fs : List (String × JVal)) (cid kid : String) (sa : Int)
    (htype : jGet fs "type" = .s "call_offer")
    (hcid : pyStrip (pyOr (jGet fs "chat_id") (.s "")) = .ok cid)
    (hcid' : cid ≠ "")
    (hkid : pyStripString (pyStr (pyOr (jGet fs "call_id") (.s ""))) = kid)
    (hkid' : kid ≠ "")
    (hmem : is_member d cid username = true)
    (hoffline : ∀ v ∈ list_members d cid, v ≠ username → wsGet reg v = [])
    (hsa : pyInt (pyOr (jGet fs "started_at") (.i now)) = .ok sa) :
    processFrame reg d username now (.dict fs) =
      .ok (d, (wsGet reg username).map (fun c =>
        (c, [("type", .s "call_timeout"), ("chat_id", .s cid),
             ("call_id", .s kid),
             ("mode", .s (if pyLowerString (pyStripString
                 (pyStr (pyOr (jGet fs "mode") (.s "voice")))) = "video"
               then "video" else "voice")),
             ("username", .s username), ("started_at", .i sa),
             ("duration", .i 0), ("reason", .s "offline")]))) := by
  have hrec : connected_members reg
      ((list_members d cid).filter (fun u => u ≠ username)) = [] := by
    apply connected_members_nil
    intro v hv
    have hp := List.of_mem_filter hv
    exact hoffline v (List.mem_of_mem_filter hv) (of_decide_eq_true hp)
  unfold processFrame
  dsimp only
  rw [htype]
  rw [if_neg (show ¬ (JVal.s "call_offer" = JVal.s "pong") by decide)]
  rw [if_neg (show ¬ (JVal.s "call_offer" = JVal.s "typing") by decide)]
  rw [if_neg (show ¬ (JVal.s "call_offer" = JVal.s "delivered") by decide)]
  rw [if_pos (show ((callTags.map JVal.s).contains (JVal.s "call_offer")) =
    true by decide)]
  rw [hcid, except_bind_ok]
  rw [hkid]
  rw [if_neg (not_or.mpr ⟨hcid', hkid'⟩)]
  rw [hmem]
  rw [if_neg (show ¬ (true = false) by decide)]
  rw [hrec]
  rw [if_pos (show JVal.s "call_offer" = JVal.s "call_offer" ∧
    ([] : List String) = [] from ⟨rfl, rfl⟩)]
  rw [hsa, except_bind_ok]
  rw [broadcast_users_singleton]

/-- C6 witness: alice (connections 1 and 2) sends a `call_offer` in chat c1
whose only other member, bob, has no live connection: both of alice's
connections receive `call_timeout` with reason `offline` and nobody else
receives anything. -/
theorem c6_witness :
    processFrame c6wReg c6wDB "alice" 42 (.dict c6wFrame) =
      .ok (c6wDB, (wsGet c6wReg "alice").map (fun c =>
        (c, [("type", .s "call_timeout"), ("chat_id", .s "c1"),
             ("call_id", .s "k1"),
             ("mode", .s (if pyLowerString (pyStripString
                 (pyStr (pyOr (jGet c6wFrame "mode") (.s "voice")))) = "video"
               then "video" else "voice")),
             ("username", .s "alice"), ("started_at", .i 42),
             ("duration", .i 0), ("reason", .s "offline")]))) := by
  exact c6_call_offer_offline c6wReg c6wDB "alice" 42 c6wFrame "c1" "k1" 42
    (by decide) (by decide) (by decide) (by decide) (by decide) (by decide)
    (by decide) (by decide)

/-! ### Claim C9: malformed / unrecognized inbound frames -/

/-- C9 evaluated on the code: a frame with an unknown tag and a frame whose
body `json.loads` rejects are both silently ignored, but a recognized
`delivered` frame whose `message_id` is the non-numeric string `"oops"`
makes `int(data.get("message_id") or 0)` raise an uncaught `ValueError`,
which ends the receive loop and so terminates the connection — contradicting
the claim that ill-typed frames are silently ignored. -/
theorem c9_illtyped_frame_terminates_connection :
    processFrame c6wReg c6wDB "alice" 0 c9BadFrame = .error .valueError ∧
    (ws_session c6wReg c6wDB 5 "alice" 0 [c9BadFrame] 0).2 =
      some .valueError ∧
    processFrame c6wReg c6wDB "alice" 0 c9UnknownFrame = .ok (c6wDB, []) ∧
    processFrame c6wReg c6wDB "alice" 0 .badJson = .ok (c6wDB, []) :=
  ⟨by decide, by decide, by decide, by decide⟩

end Messenger
